import Mathlib

/-!
Verification development for the generic resource-access layer of a payment
API client library. The concrete resource classes (order lines, order
shipments, payment refunds, top-level refunds) and the error classifier
(`ApiError`) and HTTP client factory (`createHttpClient`) are embedded from
the repository sources. The shared base class `Resource` (file
`src/resource.ts`), the model classes carrying the id conventions, and the
`ApiException` class are absent from the provided sources; they are modelled
from the specification, and every such definition carries a doc comment
starting with `Modelled from the spec:`.
-/

/-! ## Basic JavaScript-flavoured values -/

/-- Structured link value, from `src/data/global.ts` (`Url`). -/
structure Url where
  href : String
  type : String
  deriving DecidableEq, Repr

/-- Error body of a failed HTTP response, as read by `ApiError.createFromResponse`
via lodash `get` paths `data.detail`, `data.title`, `data.status`, `data.field`,
`data._links`. Absent fields are `none`, mirroring `undefined`. -/
structure ErrorBody where
  detail : Option String
  title : Option String
  status : Option Nat
  field : Option String
  links : Option (List (String × Url))
  deriving DecidableEq, Repr

/-- An HTTP error response as the classifier sees it; `respData` models the
`data` property of the axios response, which may itself be absent. -/
structure HttpResponse where
  respData : Option ErrorBody
  deriving DecidableEq, Repr

/-- The error classifier `ApiError` from the source, keeping the fields the
constructor stores: `message`, `title`, `status`, `field`, `links`. -/
structure ApiError where
  message : String
  title : Option String
  status : Option Nat
  field : Option String
  links : Option (List (String × Url))
  deriving DecidableEq, Repr

/-- Embeds `ApiError.createFromResponse`: each field is read from the response
body with lodash `get`, the message defaulting to the generic fallback when
`data.detail` resolves to `undefined`. Translation of the lodash path reads:
`get(response, "data.detail", fallback)` is `(r.respData.bind ErrorBody.detail).getD fallback`,
and the defaultless reads produce `none` when any step of the path is absent. -/
def ApiError.createFromResponse (r : HttpResponse) : ApiError :=
  { message := (r.respData.bind ErrorBody.detail).getD "Received an error without a message"
    title := r.respData.bind ErrorBody.title
    status := r.respData.bind ErrorBody.status
    field := r.respData.bind ErrorBody.field
    links := r.respData.bind ErrorBody.links }

/-- The runtime error values a call can terminate with:
a raw `TypeError` from destructuring `undefined`; the invalid-input error
thrown by `Resource.errorHandler`; an `ApiException` thrown by a disabled
method; or a classified HTTP `ApiError`. -/
inductive JsError where
  | typeError (msg : String)
  | invalidInput (msg : String)
  | apiException (msg : String)
  | apiError (e : ApiError)
  deriving DecidableEq, Repr

/-- Classification per the specification taxonomy (section 7): the two local,
pre-network failure kinds (`errorHandler` throws and disabled-method
`ApiException`s) are the Invalid Input kind; a raw `TypeError` and a
classified HTTP error are not. -/
def JsError.isLocalInvalidInput : JsError → Bool
  | .typeError _ => false
  | .invalidInput _ => true
  | .apiException _ => true
  | .apiError _ => false

/-- The message string carried by a `TypeError` raised when JavaScript
destructures `undefined` (as in `const \x7b orderId, ...parameters \x7d = params`
with `params` undefined). -/
def destructureErrMsg : String := "Cannot destructure property of undefined"

/-! ## Transport interface and call observations -/

/-- One outbound HTTP request, as composed by the engine: method and path
relative to the API root. -/
structure Request where
  method : String
  path : String
  deriving DecidableEq, Repr

/-- Opaque raw response payload; hydration internals are irrelevant to the
claims, so a successful transport result is kept abstract as a string. -/
abbrev Value := String

/-- The transport adapter: given a request it either succeeds with a raw
payload or fails with a structured HTTP error response. -/
def Transport := Request → Except HttpResponse Value

/-- One delivery to a legacy completion callback: either the success value or
the error the call failed with. -/
inductive CbEvent (α : Type) where
  | success (v : α)
  | failure (e : JsError)
  deriving DecidableEq, Repr

deriving instance DecidableEq for Except

/-- Everything observable about one method call: the settled result of the
returned promise, the transport requests issued (in order), and the values
delivered to the legacy callback (in order). -/
structure MethodOutcome (α : Type) where
  result : Except JsError α
  requests : List Request
  cbEvents : List (CbEvent α)
  deriving DecidableEq, Repr

/-! ## Spec-modelled base class `Resource` (src/resource.ts, absent from the sources) -/

/-- Modelled from the spec: the base `Resource` class of `src/resource.ts` is
absent from the provided sources. Its only mutable state relevant here is the
parent id stashed by `setParentId` and read back as `this.parentId`. -/
structure ResourceState where
  parentId : Option String
  deriving DecidableEq, Repr

/-- Modelled from the spec: `Resource.setParentId` stores the given parent id
in the instance field read back as `this.parentId`. -/
def Resource.setParentId (s : ResourceState) (pid : Option String) : ResourceState :=
  { s with parentId := pid }

/-- Splitting a character list on a separator character, the structurally
recursive equivalent of splitting a resource name on underscores. -/
def splitOnChar (c : Char) : List Char → List (List Char)
  | [] => [[]]
  | x :: xs =>
    match splitOnChar c xs with
    | [] => if x = c then [[], []] else [[x]]
    | y :: ys => if x = c then [] :: y :: ys else (x :: y) :: ys

/-- Modelled from the spec: path composition of the engine (section 4.1): the
base path is the resource path segment; for a nested resource (a resource
name of the form `parent_child`, as all nested resource names in the sources
are) the parent id is interpolated as the segment immediately preceding the
resource segment. An absent parent id interpolates as the string
`undefined`, as JavaScript template interpolation does. -/
def Resource.resourceUrl (resource : String) (parentId : Option String) : String :=
  match (splitOnChar '_' resource.data).map String.mk with
  | [parent, child] => parent ++ "/" ++ parentId.getD "undefined" ++ "/" ++ child
  | _ => resource

/-- Modelled from the spec: `Resource.errorHandler` (section 7): an invalid
input condition is raised locally before any network request; when a legacy
callback is in play the same error is also delivered to it, once. The nested
call pattern `Resource.errorHandler(Resource.errorHandler(\x7berror\x7d, cb))`
in the subclasses aborts the method at that point either way. The state is
returned unchanged. -/
def Resource.errorHandlerAbort (α : Type) (s : ResourceState) (msg : String) (cb : Bool) :
    MethodOutcome α × ResourceState :=
  let e := JsError.invalidInput msg
  ({ result := .error e
     requests := []
     cbEvents := if cb then [.failure e] else [] }, s)

/-- Shared shape of one engine round trip: issue the composed request once;
on success resolve with the produced value, on failure classify the response
through `ApiError.createFromResponse` and reject; when a legacy callback is
supplied deliver the same success value or classified error to it, once.
This is the engine behaviour of section 4.1 (Modelled from the spec: the
generic operation bodies live in the absent `src/resource.ts`). -/
def Resource.engineRound (α : Type) (mk : Value → α) (t : Transport) (req : Request)
    (cb : Bool) : MethodOutcome α :=
  match t req with
  | .ok v =>
      { result := .ok (mk v)
        requests := [req]
        cbEvents := if cb then [.success (mk v)] else [] }
  | .error r =>
      let e := JsError.apiError (ApiError.createFromResponse r)
      { result := .error e
        requests := [req]
        cbEvents := if cb then [.failure e] else [] }

/-- Modelled from the spec: `Resource.get` — one HTTP GET to the composed
path plus the id segment; resolves with the hydrated payload. -/
def Resource.engineGet (t : Transport) (s : ResourceState) (resource : String)
    (id : String) (cb : Bool) : MethodOutcome Value :=
  Resource.engineRound Value (fun v => v) t
    ⟨"GET", Resource.resourceUrl resource s.parentId ++ "/" ++ id⟩ cb

/-- Modelled from the spec: `Resource.list` — one HTTP GET to the composed
path; resolves with the raw list payload. -/
def Resource.engineList (t : Transport) (s : ResourceState) (resource : String)
    (cb : Bool) : MethodOutcome Value :=
  Resource.engineRound Value (fun v => v) t
    ⟨"GET", Resource.resourceUrl resource s.parentId⟩ cb

/-- Modelled from the spec: `Resource.create` — one HTTP POST to the composed
path; resolves with the hydrated payload. -/
def Resource.engineCreate (t : Transport) (s : ResourceState) (resource : String)
    (cb : Bool) : MethodOutcome Value :=
  Resource.engineRound Value (fun v => v) t
    ⟨"POST", Resource.resourceUrl resource s.parentId⟩ cb

/-- Modelled from the spec: `Resource.update` — one HTTP PATCH to the composed
path plus the id segment; resolves with the hydrated payload. -/
def Resource.engineUpdate (t : Transport) (s : ResourceState) (resource : String)
    (id : String) (cb : Bool) : MethodOutcome Value :=
  Resource.engineRound Value (fun v => v) t
    ⟨"PATCH", Resource.resourceUrl resource s.parentId ++ "/" ++ id⟩ cb

/-- Modelled from the spec: `Resource.delete` — one HTTP DELETE to the
composed path plus the id segment; resolves with `true` on transport success
(never `false`; failure is always a rejection). -/
def Resource.engineDelete (t : Transport) (s : ResourceState) (resource : String)
    (id : String) (cb : Bool) : MethodOutcome Bool :=
  Resource.engineRound Bool (fun _ => true) t
    ⟨"DELETE", Resource.resourceUrl resource s.parentId ++ "/" ++ id⟩ cb

/-! ## Spec-modelled id-prefix conventions (model classes absent from the sources) -/

/-- Modelled from the spec: `Order.resourcePrefix` — the fixed literal id
prefix of order ids; the spec (section 8) names it explicitly as `ord_`. -/
def Order.idStart : String := "ord_"

/-- Modelled from the spec: `Payment.resourcePrefix` — the fixed literal id
prefix of payment ids, a short code followed by an underscore (`tr_` in the
remote API convention). -/
def Payment.idStart : String := "tr_"

/-- Modelled from the spec: `Refund.resourcePrefix` — the fixed literal id
prefix of refund ids (`re_` in the remote API convention). -/
def Refund.idStart : String := "re_"

/-- Modelled from the spec: `Shipment.resourcePrefix` — the fixed literal id
prefix of shipment ids (`shp_` in the remote API convention). -/
def Shipment.idStart : String := "shp_"

/-! ## JavaScript helpers used by the subclass code -/

/-- Lodash `startsWith(string, target)` modelled on the character lists of the
two strings: the target characters must lead the string. -/
def startsWithStr (s target : String) : Bool :=
  target.data.isPrefixOf s.data

/-- Lodash `startsWith` applied to a possibly-undefined string: `undefined`
stringifies to the empty string and so fails every non-empty prefix test. -/
def startsWithJs (s : Option String) (target : String) : Bool :=
  startsWithStr (s.getD "") target

/-- JavaScript `a || b` on a possibly-undefined string: the fallback is used
when the first operand is `undefined` or the empty string (both falsy). -/
def jsOrStr : Option String → Option String → Option String
  | some s, b => if s = "" then b else some s
  | none, b => b

/-- The parent-id-bearing parameter objects of the nested resources. Only the
parent id field (`orderId` of shipments and order lines, `paymentId` of
payment refunds) flows into the observations the claims are about; the other
filter and payload fields are carried by none of the modelled observations
and are omitted. -/
structure NestedParams where
  parentId : Option String
  deriving DecidableEq, Repr

/-- The positional parameter slot of methods typed `params?: IParams | Callback`:
absent, a parameter object, or a function passed positionally (the deprecated
callback style). -/
inductive ParamSlot (P : Type) where
  | absent
  | value (p : P)
  | func
  deriving DecidableEq, Repr

/-- The `typeof params === "function"` test. -/
def ParamSlot.isFunc {P : Type} : ParamSlot P → Bool
  | .func => true
  | _ => false

/-- Lodash `get(params, parentIdField)`: `undefined` on an absent slot or a
function, the field value on an object. -/
def ParamSlot.parentField : ParamSlot NestedParams → Option String
  | .value p => p.parentId
  | _ => none

/-- JavaScript destructuring `const \x7b ... \x7d = params` of a possibly-undefined
object: throws a `TypeError` when the object is `undefined`. -/
def destructureOpt {P : Type} : Option P → Except JsError P
  | some p => .ok p
  | none => .error (.typeError destructureErrMsg)

/-- JavaScript destructuring of a `params | callback` slot reached after the
function test: objects destructure to themselves, an absent slot throws a
`TypeError`, and a function destructures without error to an object with no
own enumerable fields. -/
def destructureSlot : ParamSlot NestedParams → Except JsError NestedParams
  | .value p => .ok p
  | .absent => .error (.typeError destructureErrMsg)
  | .func => .ok { parentId := none }

/-! ## OrdersLinesResource (src/unnamed/part_001) -/

/-- Resource name of the order-lines resource (`orders_lines`). -/
def OrdersLinesResource.resource : String := "orders_lines"

/-- Human-readable API name of the order-lines resource. -/
def OrdersLinesResource.apiName : String := "Orders API (Order Lines section)"

/-- Embeds `OrdersLinesResource.update`: spread-destructure the parameters
(throws a `TypeError` on `undefined`); abort through `errorHandler` when the
order id fails the order prefix; otherwise bind the order id as parent id and
run the engine update. -/
def OrdersLinesResource.update (t : Transport) (s : ResourceState) (id : String)
    (params : Option NestedParams) (cb : Bool) : MethodOutcome Value × ResourceState :=
  match destructureOpt params with
  | .error e => ({ result := .error e, requests := [], cbEvents := [] }, s)
  | .ok _parameters =>
    if startsWithStr id Order.idStart then
      let s' := Resource.setParentId s (some id)
      (Resource.engineUpdate t s' OrdersLinesResource.resource id cb, s')
    else
      Resource.errorHandlerAbort Value s "The order id is invalid" cb

/-- Embeds `OrdersLinesResource.cancel`: check the order prefix first, then
spread-destructure the optional parameters, bind the parent id and run the
engine delete. -/
def OrdersLinesResource.cancel (t : Transport) (s : ResourceState) (id : String)
    (params : Option NestedParams) (cb : Bool) : MethodOutcome Bool × ResourceState :=
  if startsWithStr id Order.idStart then
    match destructureOpt params with
    | .error e => ({ result := .error e, requests := [], cbEvents := [] }, s)
    | .ok _parameters =>
      let s' := Resource.setParentId s (some id)
      (Resource.engineDelete t s' OrdersLinesResource.resource id cb, s')
  else
    Resource.errorHandlerAbort Bool s "The order id is invalid" cb

/-- Embeds the alias field `delete = this.cancel` of `OrdersLinesResource`. -/
def OrdersLinesResource.del : Transport → ResourceState → String →
    Option NestedParams → Bool → MethodOutcome Bool × ResourceState :=
  OrdersLinesResource.cancel

/-! ## PaymentsRefundsResource (src/src/resources/payments/refunds.ts) -/

/-- Resource name of the payment-refunds resource (`payments_refunds`). -/
def PaymentsRefundsResource.resource : String := "payments_refunds"

/-- Human-readable API name of the payment-refunds resource. -/
def PaymentsRefundsResource.apiName : String := "Refunds API"

/-- Embeds `PaymentsRefundsResource.get`: validate the refund id against the
refund prefix; in the deprecated callback branch (a function in the params
slot or a callback argument) validate `get(params, "paymentId") || this.parentId`
and run the engine get on the current state without binding — in the
promise branch destructure the params, validate the explicit payment id, bind
it as the parent id and run the engine get. -/
def PaymentsRefundsResource.get (t : Transport) (s : ResourceState) (id : String)
    (params : ParamSlot NestedParams) (cb : Bool) : MethodOutcome Value × ResourceState :=
  if startsWithStr id Refund.idStart then
    if params.isFunc || cb then
      let paymentId := jsOrStr params.parentField s.parentId
      if startsWithJs paymentId Payment.idStart then
        (Resource.engineGet t s PaymentsRefundsResource.resource id true, s)
      else
        Resource.errorHandlerAbort Value s "The payment id is invalid" cb
    else
      match destructureSlot params with
      | .error e => ({ result := .error e, requests := [], cbEvents := [] }, s)
      | .ok p =>
        if startsWithJs p.parentId Payment.idStart then
          let s' := Resource.setParentId s p.parentId
          (Resource.engineGet t s' PaymentsRefundsResource.resource id cb, s')
        else
          Resource.errorHandlerAbort Value s "The payment id is invalid" cb
  else
    Resource.errorHandlerAbort Value s "The refund id is invalid" cb

/-- Embeds `PaymentsRefundsResource.cancel`: the same branch structure as
`get`, running the engine delete; the callback branch again validates
against the explicit-or-bound payment id but runs on the unmodified state. -/
def PaymentsRefundsResource.cancel (t : Transport) (s : ResourceState) (id : String)
    (params : ParamSlot NestedParams) (cb : Bool) : MethodOutcome Bool × ResourceState :=
  if startsWithStr id Refund.idStart then
    if params.isFunc || cb then
      let paymentId := jsOrStr params.parentField s.parentId
      if startsWithJs paymentId Payment.idStart then
        (Resource.engineDelete t s PaymentsRefundsResource.resource id true, s)
      else
        Resource.errorHandlerAbort Bool s "The payment id is invalid" cb
    else
      match destructureSlot params with
      | .error e => ({ result := .error e, requests := [], cbEvents := [] }, s)
      | .ok p =>
        if startsWithJs p.parentId Payment.idStart then
          let s' := Resource.setParentId s p.parentId
          (Resource.engineDelete t s' PaymentsRefundsResource.resource id cb, s')
        else
          Resource.errorHandlerAbort Bool s "The payment id is invalid" cb
  else
    Resource.errorHandlerAbort Bool s "The refund id is invalid" cb

/-- Embeds the alias field `delete = this.cancel` of `PaymentsRefundsResource`. -/
def PaymentsRefundsResource.del : Transport → ResourceState → String →
    ParamSlot NestedParams → Bool → MethodOutcome Bool × ResourceState :=
  PaymentsRefundsResource.cancel

/-- Embeds the disabled `PaymentsRefundsResource.update`: throws an
`ApiException` naming the method and the API name; every argument is ignored
and no request or callback delivery happens. -/
def PaymentsRefundsResource.update (_id : String) (_params : Option NestedParams)
    (_cb : Bool) : MethodOutcome Value :=
  { result := .error (.apiException
      ("The method \"update\" does not exist on the \"" ++ PaymentsRefundsResource.apiName ++ "\""))
    requests := []
    cbEvents := [] }

/-! ## OrdersShipmentsResource (src/src/resources/orders/shipments.ts) -/

/-- Resource name of the order-shipments resource (`orders_shipments`). -/
def OrdersShipmentsResource.resource : String := "orders_shipments"

/-- Human-readable API name of the order-shipments resource. -/
def OrdersShipmentsResource.apiName : String := "Shipments API"

/-- Embeds `OrdersShipmentsResource.create`: destructure the parameters
(pulling out `orderId`), validate the order id, bind it and run the engine
create. -/
def OrdersShipmentsResource.create (t : Transport) (s : ResourceState)
    (params : Option NestedParams) (cb : Bool) : MethodOutcome Value × ResourceState :=
  match destructureOpt params with
  | .error e => ({ result := .error e, requests := [], cbEvents := [] }, s)
  | .ok p =>
    if startsWithJs p.parentId Order.idStart then
      let s' := Resource.setParentId s p.parentId
      (Resource.engineCreate t s' OrdersShipmentsResource.resource cb, s')
    else
      Resource.errorHandlerAbort Value s "The order id is invalid" cb

/-- Embeds `OrdersShipmentsResource.update`: destructure the parameters
first (a `TypeError` on `undefined` before any id check), then validate the
shipment id and the order id, bind the order id and run the engine update. -/
def OrdersShipmentsResource.update (t : Transport) (s : ResourceState) (id : String)
    (params : Option NestedParams) (cb : Bool) : MethodOutcome Value × ResourceState :=
  match destructureOpt params with
  | .error e => ({ result := .error e, requests := [], cbEvents := [] }, s)
  | .ok p =>
    if startsWithStr id Shipment.idStart then
      if startsWithJs p.parentId Order.idStart then
        let s' := Resource.setParentId s p.parentId
        (Resource.engineUpdate t s' OrdersShipmentsResource.resource id cb, s')
      else
        Resource.errorHandlerAbort Value s "The order id is invalid" cb
    else
      Resource.errorHandlerAbort Value s "The shipment id is invalid" cb

/-- Embeds `OrdersShipmentsResource.get`. Note that no branch validates the
shipment id itself: only the order id is checked. The deprecated callback
branch validates `get(params, "orderId") || this.parentId` and runs on the
unmodified state; the promise branch destructures, validates the explicit
order id, binds it and runs the engine get. -/
def OrdersShipmentsResource.get (t : Transport) (s : ResourceState) (id : String)
    (params : ParamSlot NestedParams) (cb : Bool) : MethodOutcome Value × ResourceState :=
  if params.isFunc || cb then
    let orderId := jsOrStr params.parentField s.parentId
    if startsWithJs orderId Order.idStart then
      (Resource.engineGet t s OrdersShipmentsResource.resource id true, s)
    else
      Resource.errorHandlerAbort Value s "The order id is invalid" cb
  else
    match destructureSlot params with
    | .error e => ({ result := .error e, requests := [], cbEvents := [] }, s)
    | .ok p =>
      if startsWithJs p.parentId Order.idStart then
        let s' := Resource.setParentId s p.parentId
        (Resource.engineGet t s' OrdersShipmentsResource.resource id cb, s')
      else
        Resource.errorHandlerAbort Value s "The order id is invalid" cb

/-- Embeds `OrdersShipmentsResource.list`: destructure the optional
parameters (a `TypeError` on `undefined`), validate the order id, bind it and
run the engine list. -/
def OrdersShipmentsResource.list (t : Transport) (s : ResourceState)
    (params : Option NestedParams) (cb : Bool) : MethodOutcome Value × ResourceState :=
  match destructureOpt params with
  | .error e => ({ result := .error e, requests := [], cbEvents := [] }, s)
  | .ok p =>
    if startsWithJs p.parentId Order.idStart then
      let s' := Resource.setParentId s p.parentId
      (Resource.engineList t s' OrdersShipmentsResource.resource cb, s')
    else
      Resource.errorHandlerAbort Value s "The order id is invalid" cb

/-- Embeds the disabled `OrdersShipmentsResource.cancel`: throws an
`ApiException` naming the method and the API name; arguments are ignored,
no request is issued and no callback is invoked. -/
def OrdersShipmentsResource.cancel (_id : String) (_params : Option NestedParams)
    (_cb : Bool) : MethodOutcome Bool :=
  { result := .error (.apiException
      ("The method \"cancel\" does not exist on the \"" ++ OrdersShipmentsResource.apiName ++ "\""))
    requests := []
    cbEvents := [] }

/-- Embeds the disabled `OrdersShipmentsResource.delete`: like `cancel` but
naming `delete` in the message. -/
def OrdersShipmentsResource.del (_id : String) (_params : Option NestedParams)
    (_cb : Bool) : MethodOutcome Bool :=
  { result := .error (.apiException
      ("The method \"delete\" does not exist on the \"" ++ OrdersShipmentsResource.apiName ++ "\""))
    requests := []
    cbEvents := [] }

/-! ## RefundsResource (src/src/resources/refunds.ts) -/

/-- Resource name of the top-level refunds resource (`refunds`, not nested). -/
def RefundsResource.resource : String := "refunds"

/-- Human-readable API name of the top-level refunds resource. -/
def RefundsResource.apiName : String := "Refunds API"

/-- Embeds `RefundsResource.list`: the deprecated callback branch forwards a
positionally-passed function as the callback; either branch runs the engine
list on the stateless top-level resource. -/
def RefundsResource.list (t : Transport) (params : ParamSlot Unit) (cb : Bool) :
    MethodOutcome Value :=
  if params.isFunc || cb then
    Resource.engineList t { parentId := none } RefundsResource.resource true
  else
    Resource.engineList t { parentId := none } RefundsResource.resource cb

/-- Embeds the disabled `RefundsResource.create`. -/
def RefundsResource.create (_id : String) (_params : Option NestedParams)
    (_cb : Bool) : MethodOutcome Value :=
  { result := .error (.apiException
      ("The method \"create\" does not exist on the \"" ++ RefundsResource.apiName ++ "\""))
    requests := []
    cbEvents := [] }

/-- Embeds the disabled `RefundsResource.get`. -/
def RefundsResource.get (_id : String) (_params : Option NestedParams)
    (_cb : Bool) : MethodOutcome Value :=
  { result := .error (.apiException
      ("The method \"get\" does not exist on the \"" ++ RefundsResource.apiName ++ "\""))
    requests := []
    cbEvents := [] }

/-- Embeds the disabled `RefundsResource.update`. -/
def RefundsResource.update (_id : String) (_params : Option NestedParams)
    (_cb : Bool) : MethodOutcome Value :=
  { result := .error (.apiException
      ("The method \"update\" does not exist on the \"" ++ RefundsResource.apiName ++ "\""))
    requests := []
    cbEvents := [] }

/-- Embeds the disabled `RefundsResource.cancel`. -/
def RefundsResource.cancel (_id : String) (_params : Option NestedParams)
    (_cb : Bool) : MethodOutcome Bool :=
  { result := .error (.apiException
      ("The method \"cancel\" does not exist on the \"" ++ RefundsResource.apiName ++ "\""))
    requests := []
    cbEvents := [] }

/-- Embeds the disabled `RefundsResource.delete`. -/
def RefundsResource.del (_id : String) (_params : Option NestedParams)
    (_cb : Bool) : MethodOutcome Bool :=
  { result := .error (.apiException
      ("The method \"delete\" does not exist on the \"" ++ RefundsResource.apiName ++ "\""))
    requests := []
    cbEvents := [] }

/-! ## Query parameter serialization (qs.stringify default, wired in createHttpClient) -/

/-- A query parameter value: a plain string or an array of strings. -/
inductive QueryVal where
  | str (s : String)
  | arr (xs : List String)
  deriving DecidableEq, Repr

/-- Upper-case hexadecimal digit for a value below 16. -/
def hexDigit (n : Nat) : Char :=
  if n < 10 then Char.ofNat (48 + n) else Char.ofNat (55 + n)

/-- Percent-encoding of one ASCII character in RFC 3986 style: unreserved
characters pass through, everything else becomes a percent escape of its code
point (the inputs in scope are ASCII). -/
def qsEncodeChar (c : Char) : String :=
  if c.isAlphanum || c = '-' || c = '_' || c = '.' || c = '~' then
    String.singleton c
  else
    "%" ++ String.singleton (hexDigit (c.toNat / 16)) ++ String.singleton (hexDigit (c.toNat % 16))

/-- Percent-encoding of a string, character by character. -/
def qsEncode (s : String) : String :=
  String.join (s.toList.map qsEncodeChar)

/-- Models the documented default behaviour of the qs library function
`stringify`, the serializer the source wires into the client with
`options.paramsSerializer = options.paramsSerializer || qs.stringify`: a
string parameter becomes one percent-encoded `key=value` pair, an array
parameter becomes one pair per element under the bracket-indexed key
`key[i]` (the default `arrayFormat: "indices"`), and the pairs are joined
with ampersands. -/
def qsStringify (ps : List (String × QueryVal)) : String :=
  String.intercalate "&" (ps.flatMap fun kv =>
    match kv.2 with
    | .str v => [qsEncode kv.1 ++ "=" ++ qsEncode v]
    | .arr xs => xs.mapIdx fun i x =>
        qsEncode (kv.1 ++ "[" ++ toString i ++ "]") ++ "=" ++ qsEncode x)

/-- The serialization described by the words of the spec sentence behind the
serializer claim: repeated-key style, the same key repeated once per array
element. Stated only to be compared against `qsStringify`. -/
def repeatedKeyStringify (ps : List (String × QueryVal)) : String :=
  String.intercalate "&" (ps.flatMap fun kv =>
    match kv.2 with
    | .str v => [qsEncode kv.1 ++ "=" ++ qsEncode v]
    | .arr xs => xs.map fun x => qsEncode kv.1 ++ "=" ++ qsEncode x)

/-! ## createHttpClient (src/unnamed/part_002) -/

/-- The https agent value: only the certificate it was built from matters to
the claims. -/
structure HttpsAgent where
  cert : String
  deriving DecidableEq, Repr

/-- Header maps are string-keyed partial maps, the shallow model of a
JavaScript object used only through key lookup. -/
def Headers := String → Option String

/-- The caller-supplied options of `createHttpClient` (`MollieRequestConfig`):
an api key plus the axios fields the function touches. -/
structure MollieRequestConfig where
  apiKey : String
  baseURL : Option String
  headers : Headers
  httpsAgent : Option HttpsAgent
  paramsSerializer : Option (List (String × QueryVal) → String)

/-- The ambient environment `createHttpClient` reads: whether a global
`window` object is defined, the bundled root certificate, and the process and
package versions interpolated into the user-agent headers. -/
structure JsEnv where
  windowDefined : Bool
  bundledCert : String
  processVersion : String
  packageVersion : String

/-- The axios configuration produced by `createHttpClient`: the same fields
with the base URL now fixed. -/
structure HttpClientConfig where
  apiKey : String
  baseURL : String
  headers : Headers
  httpsAgent : Option HttpsAgent
  paramsSerializer : List (String × QueryVal) → String

/-- Embeds `createHttpClient`: overwrite the base URL with the fixed API
root; spread the caller headers under the five fixed headers (Authorization
bearer token from the api key among them); install an https agent built from
the bundled root certificate exactly when a global `window` object is defined
(`typeof window !== "undefined"`), otherwise keep the caller agent; default
the params serializer to `qs.stringify`. -/
def createHttpClient (o : MollieRequestConfig) (e : JsEnv) : HttpClientConfig :=
  { apiKey := o.apiKey
    baseURL := "https://api.mollie.com:443/v2/"
    headers := fun k =>
      if k = "Authorization" then some ("Bearer " ++ o.apiKey)
      else if k = "Accept-Encoding" then some "gzip"
      else if k = "Content-Type" then some "application/json"
      else if k = "User-Agent" then some ("node.js/" ++ e.processVersion)
      else if k = "X-Mollie-User-Agent" then some ("mollie/" ++ e.packageVersion)
      else o.headers k
    httpsAgent := if e.windowDefined then some { cert := e.bundledCert } else o.httpsAgent
    paramsSerializer := o.paramsSerializer.getD qsStringify }

/-! ## Shared helper notions for the theorems -/

/-- Substring containment stated by decomposition. -/
def containsStr (s sub : String) : Prop :=
  ∃ a b, s = a ++ sub ++ b

/-- Consistency of the callback deliveries of one call with its settled
result: the callback fires at most once, and anything it receives is exactly
the success value or error the future settles with. -/
def cbConsistent {α : Type} (o : MethodOutcome α) : Prop :=
  o.cbEvents.length ≤ 1 ∧
    ∀ ev ∈ o.cbEvents,
      match o.result with
      | .ok v => ev = .success v
      | .error e => ev = .failure e

/-- A transport stub that always succeeds with a fixed payload, used by the
concrete counterexamples and witnesses. -/
def okTransport : Transport := fun _ => .ok "response"

/-- The behaviour required of a disabled operation: no transport request, no
callback invocation, and a rejection with a local error of the Invalid Input
kind whose message contains the resource API name and the words
"does not exist". -/
def disabledBehaviour {α : Type} (o : MethodOutcome α) (apiName : String) : Prop :=
  o.requests = [] ∧ o.cbEvents = [] ∧
    ∃ msg, o.result = .error (.apiException msg) ∧
      (JsError.apiException msg).isLocalInvalidInput = true ∧
      containsStr msg apiName ∧ containsStr msg "does not exist"

/-! ## Helper lemmas -/

theorem resourceUrl_paymentsRefunds (pid : String) :
    Resource.resourceUrl PaymentsRefundsResource.resource (some pid)
      = "payments/" ++ pid ++ "/refunds" := by
  have h1 : Resource.resourceUrl PaymentsRefundsResource.resource (some pid)
      = "payments" ++ "/" ++ pid ++ "/" ++ "refunds" := rfl
  rw [h1, String.append_assoc ("payments" ++ "/" ++ pid) "/" "refunds"]
  rfl

theorem resourceUrl_ordersShipments (pid : String) :
    Resource.resourceUrl OrdersShipmentsResource.resource (some pid)
      = "orders/" ++ pid ++ "/shipments" := by
  have h1 : Resource.resourceUrl OrdersShipmentsResource.resource (some pid)
      = "orders" ++ "/" ++ pid ++ "/" ++ "shipments" := rfl
  rw [h1, String.append_assoc ("orders" ++ "/" ++ pid) "/" "shipments"]
  rfl

theorem resourceUrl_ordersLines (pid : String) :
    Resource.resourceUrl OrdersLinesResource.resource (some pid)
      = "orders/" ++ pid ++ "/lines" := by
  have h1 : Resource.resourceUrl OrdersLinesResource.resource (some pid)
      = "orders" ++ "/" ++ pid ++ "/" ++ "lines" := rfl
  rw [h1, String.append_assoc ("orders" ++ "/" ++ pid) "/" "lines"]
  rfl

theorem getPath_paymentsRefunds (pid id : String) :
    Resource.resourceUrl PaymentsRefundsResource.resource (some pid) ++ "/" ++ id
      = "payments/" ++ pid ++ "/refunds/" ++ id := by
  rw [resourceUrl_paymentsRefunds, String.append_assoc ("payments/" ++ pid) "/refunds" "/"]
  rfl

theorem getPath_ordersShipments (pid id : String) :
    Resource.resourceUrl OrdersShipmentsResource.resource (some pid) ++ "/" ++ id
      = "orders/" ++ pid ++ "/shipments/" ++ id := by
  rw [resourceUrl_ordersShipments, String.append_assoc ("orders/" ++ pid) "/shipments" "/"]
  rfl

theorem engineRound_requests (α : Type) (mk : Value → α) (t : Transport) (req : Request)
    (cb : Bool) : (Resource.engineRound α mk t req cb).requests = [req] := by
  unfold Resource.engineRound
  cases t req <;> rfl

theorem engineGet_requests (t : Transport) (s : ResourceState) (r id : String) (cb : Bool) :
    (Resource.engineGet t s r id cb).requests
      = [⟨"GET", Resource.resourceUrl r s.parentId ++ "/" ++ id⟩] :=
  engineRound_requests _ _ _ _ _

theorem cbConsistent_engineRound (α : Type) (mk : Value → α) (t : Transport) (req : Request)
    (cb : Bool) : cbConsistent (Resource.engineRound α mk t req cb) := by
  unfold Resource.engineRound cbConsistent
  cases t req <;> cases cb <;> simp

theorem cbConsistent_abort (α : Type) (s : ResourceState) (msg : String) (cb : Bool) :
    cbConsistent (Resource.errorHandlerAbort α s msg cb).1 := by
  unfold Resource.errorHandlerAbort cbConsistent
  cases cb <;> simp

theorem cbConsistent_plain (α : Type) (e : JsError) :
    cbConsistent ({ result := .error e, requests := [], cbEvents := [] } : MethodOutcome α) := by
  simp [cbConsistent]

theorem cbConsistent_refundsList (t : Transport) (su : ParamSlot Unit) (cb : Bool) :
    cbConsistent (RefundsResource.list t su cb) := by
  unfold RefundsResource.list
  split
  · exact cbConsistent_engineRound _ _ _ _ _
  · exact cbConsistent_engineRound _ _ _ _ _

theorem cbConsistent_linesUpdate (t : Transport) (s : ResourceState) (id : String)
    (p : Option NestedParams) (cb : Bool) :
    cbConsistent (OrdersLinesResource.update t s id p cb).1 := by
  unfold OrdersLinesResource.update
  cases p with
  | none => exact cbConsistent_plain _ _
  | some q =>
    by_cases h : startsWithStr id Order.idStart <;>
      simp only [destructureOpt, h, Bool.false_eq_true, ite_true, ite_false]
    · exact cbConsistent_engineRound _ _ _ _ _
    · exact cbConsistent_abort _ _ _ _

theorem cbConsistent_linesCancel (t : Transport) (s : ResourceState) (id : String)
    (p : Option NestedParams) (cb : Bool) :
    cbConsistent (OrdersLinesResource.cancel t s id p cb).1 := by
  unfold OrdersLinesResource.cancel
  dsimp only []
  split
  · split
    · exact cbConsistent_plain _ _
    · exact cbConsistent_engineRound _ _ _ _ _
  · exact cbConsistent_abort _ _ _ _

theorem cbConsistent_payRefundsGet (t : Transport) (s : ResourceState) (id : String)
    (slot : ParamSlot NestedParams) (cb : Bool) :
    cbConsistent (PaymentsRefundsResource.get t s id slot cb).1 := by
  unfold PaymentsRefundsResource.get
  dsimp only []
  split
  · split
    · split
      · exact cbConsistent_engineRound _ _ _ _ _
      · exact cbConsistent_abort _ _ _ _
    · split
      · exact cbConsistent_plain _ _
      · split
        · exact cbConsistent_engineRound _ _ _ _ _
        · exact cbConsistent_abort _ _ _ _
  · exact cbConsistent_abort _ _ _ _

theorem cbConsistent_payRefundsCancel (t : Transport) (s : ResourceState) (id : String)
    (slot : ParamSlot NestedParams) (cb : Bool) :
    cbConsistent (PaymentsRefundsResource.cancel t s id slot cb).1 := by
  unfold PaymentsRefundsResource.cancel
  dsimp only []
  split
  · split
    · split
      · exact cbConsistent_engineRound _ _ _ _ _
      · exact cbConsistent_abort _ _ _ _
    · split
      · exact cbConsistent_plain _ _
      · split
        · exact cbConsistent_engineRound _ _ _ _ _
        · exact cbConsistent_abort _ _ _ _
  · exact cbConsistent_abort _ _ _ _

theorem cbConsistent_shipGet (t : Transport) (s : ResourceState) (id : String)
    (slot : ParamSlot NestedParams) (cb : Bool) :
    cbConsistent (OrdersShipmentsResource.get t s id slot cb).1 := by
  unfold OrdersShipmentsResource.get
  dsimp only []
  split
  · split
    · exact cbConsistent_engineRound _ _ _ _ _
    · exact cbConsistent_abort _ _ _ _
  · split
    · exact cbConsistent_plain _ _
    · split
      · exact cbConsistent_engineRound _ _ _ _ _
      · exact cbConsistent_abort _ _ _ _

theorem cbConsistent_shipCreate (t : Transport) (s : ResourceState)
    (p : Option NestedParams) (cb : Bool) :
    cbConsistent (OrdersShipmentsResource.create t s p cb).1 := by
  unfold OrdersShipmentsResource.create
  dsimp only []
  split
  · exact cbConsistent_plain _ _
  · split
    · exact cbConsistent_engineRound _ _ _ _ _
    · exact cbConsistent_abort _ _ _ _

theorem cbConsistent_shipUpdate (t : Transport) (s : ResourceState) (id : String)
    (p : Option NestedParams) (cb : Bool) :
    cbConsistent (OrdersShipmentsResource.update t s id p cb).1 := by
  unfold OrdersShipmentsResource.update
  dsimp only []
  split
  · exact cbConsistent_plain _ _
  · split
    · split
      · exact cbConsistent_engineRound _ _ _ _ _
      · exact cbConsistent_abort _ _ _ _
    · exact cbConsistent_abort _ _ _ _

theorem cbConsistent_shipList (t : Transport) (s : ResourceState)
    (p : Option NestedParams) (cb : Bool) :
    cbConsistent (OrdersShipmentsResource.list t s p cb).1 := by
  unfold OrdersShipmentsResource.list
  dsimp only []
  split
  · exact cbConsistent_plain _ _
  · split
    · exact cbConsistent_engineRound _ _ _ _ _
    · exact cbConsistent_abort _ _ _ _

/-! ## Claim C4 -/

/-- C4: for every HTTP error response object, including one whose body is
partially or fully absent, the classifier `ApiError.createFromResponse`
returns an `ApiError` (it is a total function, so it never itself throws);
the message equals the body detail field when present and otherwise the
generic fallback message, and title, status, field and links are each read
from the body, defaulting to the absent value when missing. -/
theorem claim4_classifier_defaults (r : HttpResponse) :
    (∀ d, r.respData.bind ErrorBody.detail = some d →
      (ApiError.createFromResponse r).message = d) ∧
    (r.respData.bind ErrorBody.detail = none →
      (ApiError.createFromResponse r).message = "Received an error without a message") ∧
    (ApiError.createFromResponse r).title = r.respData.bind ErrorBody.title ∧
    (ApiError.createFromResponse r).status = r.respData.bind ErrorBody.status ∧
    (ApiError.createFromResponse r).field = r.respData.bind ErrorBody.field ∧
    (ApiError.createFromResponse r).links = r.respData.bind ErrorBody.links := by
  refine ⟨?_, ?_, rfl, rfl, rfl, rfl⟩
  · intro d h
    simp [ApiError.createFromResponse, h]
  · intro h
    simp [ApiError.createFromResponse, h]

/-- Witness for C4: the classifier applied to the fully absent body yields
the fallback message and absent fields, and applied to a body carrying a
detail yields that detail. -/
theorem claim4_classifier_defaults_witness :
    (ApiError.createFromResponse ⟨none⟩).message = "Received an error without a message" ∧
    (ApiError.createFromResponse ⟨none⟩).title = none ∧
    (ApiError.createFromResponse
        ⟨some ⟨some "The amount is invalid", none, none, none, none⟩⟩).message
      = "The amount is invalid" :=
  ⟨(claim4_classifier_defaults ⟨none⟩).2.1 rfl,
   (claim4_classifier_defaults ⟨none⟩).2.2.1,
   (claim4_classifier_defaults ⟨some ⟨some "The amount is invalid", none, none, none, none⟩⟩).1
     "The amount is invalid" rfl⟩

/-! ## Claim C5 -/

/-- C5: invoking a disabled operation (cancel or delete on order shipments;
create, get, update, cancel or delete on top-level refunds) raises, for every
input, a local error of the Invalid Input kind whose message contains the
resource API name and the words "does not exist", with the transport adapter
never invoked. -/
theorem claim5_disabled_operations (id : String) (params : Option NestedParams) (cb : Bool) :
    disabledBehaviour (OrdersShipmentsResource.cancel id params cb)
      OrdersShipmentsResource.apiName ∧
    disabledBehaviour (OrdersShipmentsResource.del id params cb)
      OrdersShipmentsResource.apiName ∧
    disabledBehaviour (RefundsResource.create id params cb) RefundsResource.apiName ∧
    disabledBehaviour (RefundsResource.get id params cb) RefundsResource.apiName ∧
    disabledBehaviour (RefundsResource.update id params cb) RefundsResource.apiName ∧
    disabledBehaviour (RefundsResource.cancel id params cb) RefundsResource.apiName ∧
    disabledBehaviour (RefundsResource.del id params cb) RefundsResource.apiName := by
  refine ⟨?_, ?_, ?_, ?_, ?_, ?_, ?_⟩
  · exact ⟨rfl, rfl, "The method \"cancel\" does not exist on the \"Shipments API\"", rfl, rfl,
      ⟨"The method \"cancel\" does not exist on the \"", "\"", by decide⟩,
      ⟨"The method \"cancel\" ", " on the \"Shipments API\"", by decide⟩⟩
  · exact ⟨rfl, rfl, "The method \"delete\" does not exist on the \"Shipments API\"", rfl, rfl,
      ⟨"The method \"delete\" does not exist on the \"", "\"", by decide⟩,
      ⟨"The method \"delete\" ", " on the \"Shipments API\"", by decide⟩⟩
  · exact ⟨rfl, rfl, "The method \"create\" does not exist on the \"Refunds API\"", rfl, rfl,
      ⟨"The method \"create\" does not exist on the \"", "\"", by decide⟩,
      ⟨"The method \"create\" ", " on the \"Refunds API\"", by decide⟩⟩
  · exact ⟨rfl, rfl, "The method \"get\" does not exist on the \"Refunds API\"", rfl, rfl,
      ⟨"The method \"get\" does not exist on the \"", "\"", by decide⟩,
      ⟨"The method \"get\" ", " on the \"Refunds API\"", by decide⟩⟩
  · exact ⟨rfl, rfl, "The method \"update\" does not exist on the \"Refunds API\"", rfl, rfl,
      ⟨"The method \"update\" does not exist on the \"", "\"", by decide⟩,
      ⟨"The method \"update\" ", " on the \"Refunds API\"", by decide⟩⟩
  · exact ⟨rfl, rfl, "The method \"cancel\" does not exist on the \"Refunds API\"", rfl, rfl,
      ⟨"The method \"cancel\" does not exist on the \"", "\"", by decide⟩,
      ⟨"The method \"cancel\" ", " on the \"Refunds API\"", by decide⟩⟩
  · exact ⟨rfl, rfl, "The method \"delete\" does not exist on the \"Refunds API\"", rfl, rfl,
      ⟨"The method \"delete\" does not exist on the \"", "\"", by decide⟩,
      ⟨"The method \"delete\" ", " on the \"Refunds API\"", by decide⟩⟩

/-! ## Claim C6 -/

/-- C6 counterexample: order shipments expose both names, yet the two reject
with different error values (the messages name the invoked method), so delete
and cancel are not the same operation on every resource exposing both. -/
theorem claim6_counterexample :
    (OrdersShipmentsResource.cancel "shp_1" none false).result
      ≠ (OrdersShipmentsResource.del "shp_1" none false).result := by decide

/-- C6 amended: on order lines and payment refunds, delete is literally an
alias of cancel, so the two coincide on every input; on order shipments both
names are disabled stubs which reject without transport interaction, with the
same error kind but messages differing in the method name. -/
theorem claim6_amended_alias (id : String) (p : Option NestedParams) (cb : Bool) :
    OrdersLinesResource.del = OrdersLinesResource.cancel ∧
    PaymentsRefundsResource.del = PaymentsRefundsResource.cancel ∧
    (OrdersShipmentsResource.cancel id p cb).result
      = .error (.apiException "The method \"cancel\" does not exist on the \"Shipments API\"") ∧
    (OrdersShipmentsResource.del id p cb).result
      = .error (.apiException "The method \"delete\" does not exist on the \"Shipments API\"") ∧
    (OrdersShipmentsResource.cancel id p cb).requests = [] ∧
    (OrdersShipmentsResource.del id p cb).requests = [] :=
  ⟨rfl, rfl, rfl, rfl, rfl, rfl⟩

/-! ## Claim C9 -/

/-- C9: calling a nested-resource operation that destructures its params
object (order shipments list and update, payment refunds cancel under a valid
refund id) with the params `undefined` and no callback throws the raw
destructuring `TypeError` — which is not of the classified Invalid Input
kind — and no HTTP request is made. -/
theorem claim9_undefined_params_raw_typeError (t : Transport) (s : ResourceState)
    (id : String) :
    (OrdersShipmentsResource.list t s none false).1.result
        = .error (.typeError destructureErrMsg) ∧
    (OrdersShipmentsResource.list t s none false).1.requests = [] ∧
    (OrdersShipmentsResource.update t s id none false).1.result
        = .error (.typeError destructureErrMsg) ∧
    (OrdersShipmentsResource.update t s id none false).1.requests = [] ∧
    (JsError.typeError destructureErrMsg).isLocalInvalidInput = false ∧
    (startsWithStr id Refund.idStart = true →
      (PaymentsRefundsResource.cancel t s id .absent false).1.result
          = .error (.typeError destructureErrMsg) ∧
      (PaymentsRefundsResource.cancel t s id .absent false).1.requests = []) := by
  refine ⟨rfl, rfl, rfl, rfl, rfl, ?_⟩
  intro h
  unfold PaymentsRefundsResource.cancel
  simp [h, ParamSlot.isFunc, destructureSlot]

/-- Witness for C9 at a well-formed refund id with absent params. -/
theorem claim9_undefined_params_raw_typeError_witness :
    (PaymentsRefundsResource.cancel okTransport ⟨none⟩ "re_1" .absent false).1.result
        = .error (.typeError destructureErrMsg) ∧
    (PaymentsRefundsResource.cancel okTransport ⟨none⟩ "re_1" .absent false).1.requests = [] :=
  (claim9_undefined_params_raw_typeError okTransport ⟨none⟩ "re_1").2.2.2.2.2 (by decide)

/-! ## Claim C10 -/

/-- C10: `createHttpClient` installs the https agent built from the bundled
root certificate exactly when a global window object is defined (keeping the
caller agent otherwise), unconditionally overwrites any caller base URL with
the fixed API root, and sets the Authorization header to a bearer token
derived from the supplied api key. -/
theorem claim10_createHttpClient_config (o : MollieRequestConfig) (e : JsEnv) :
    (createHttpClient o e).httpsAgent
        = (if e.windowDefined then some { cert := e.bundledCert } else o.httpsAgent) ∧
    (createHttpClient o e).baseURL = "https://api.mollie.com:443/v2/" ∧
    (createHttpClient o e).headers "Authorization" = some ("Bearer " ++ o.apiKey) := by
  refine ⟨rfl, rfl, ?_⟩
  simp [createHttpClient]

/-! ## Branch lemmas for PaymentsRefundsResource.get -/

theorem payRefundsGet_callback_branch (t : Transport) (s : ResourceState) (id : String)
    (slot : ParamSlot NestedParams) (cb : Bool)
    (hid : startsWithStr id Refund.idStart = true)
    (hcb : (slot.isFunc || cb) = true)
    (hval : startsWithJs (jsOrStr slot.parentField s.parentId) Payment.idStart = true) :
    PaymentsRefundsResource.get t s id slot cb
      = (Resource.engineGet t s PaymentsRefundsResource.resource id true, s) := by
  unfold PaymentsRefundsResource.get
  simp [hid, hcb, hval]

theorem payRefundsGet_callback_branch_invalid (t : Transport) (s : ResourceState)
    (id : String) (slot : ParamSlot NestedParams) (cb : Bool)
    (hid : startsWithStr id Refund.idStart = true)
    (hcb : (slot.isFunc || cb) = true)
    (hval : startsWithJs (jsOrStr slot.parentField s.parentId) Payment.idStart = false) :
    PaymentsRefundsResource.get t s id slot cb
      = Resource.errorHandlerAbort Value s "The payment id is invalid" cb := by
  unfold PaymentsRefundsResource.get
  simp [hid, hcb, hval]

theorem payRefundsGet_promise_branch (t : Transport) (s : ResourceState) (id pid : String)
    (hid : startsWithStr id Refund.idStart = true)
    (hpid : startsWithStr pid Payment.idStart = true) :
    PaymentsRefundsResource.get t s id (.value ⟨some pid⟩) false
      = (Resource.engineGet t ⟨some pid⟩ PaymentsRefundsResource.resource id false,
         ⟨some pid⟩) := by
  unfold PaymentsRefundsResource.get
  have hval : startsWithJs (some pid) Payment.idStart = true := hpid
  simp [hid, hval, ParamSlot.isFunc, destructureSlot, Resource.setParentId]

theorem payRefundsGet_promise_branch_invalid (t : Transport) (s : ResourceState)
    (id : String) (p : NestedParams)
    (hid : startsWithStr id Refund.idStart = true)
    (hval : startsWithJs p.parentId Payment.idStart = false) :
    PaymentsRefundsResource.get t s id (.value p) false
      = Resource.errorHandlerAbort Value s "The payment id is invalid" false := by
  unfold PaymentsRefundsResource.get
  simp [hid, hval, ParamSlot.isFunc, destructureSlot]

/-! ## Claim C1 -/

/-- C1 counterexample: `OrdersShipmentsResource.get` never validates the
shipment id against the shipment prefix convention. With the invalid shipment
id "x" and a valid order id, the transport is invoked once (a GET to the
composed path) and the call succeeds, instead of raising Invalid Input with
zero transport invocations. -/
theorem claim1_counterexample :
    startsWithStr "x" Shipment.idStart = false ∧
    (OrdersShipmentsResource.get okTransport ⟨none⟩ "x"
        (.value ⟨some "ord_1"⟩) false).1.requests
      = [⟨"GET", "orders/ord_1/shipments/x"⟩] ∧
    (OrdersShipmentsResource.get okTransport ⟨none⟩ "x"
        (.value ⟨some "ord_1"⟩) false).1.result = .ok "response" := by decide

/-- C1 amended: for the operations that do validate the id — order lines
update and cancel (against the order prefix), payment refunds get and cancel
(against the refund prefix) and shipments update (against the shipment
prefix), though not shipments get, which never checks its shipment id — an id
violating the prefix convention makes the call reject with the Invalid Input
error and zero transport invocations, whether or not a legacy callback is
supplied. -/
theorem claim1_amended_invalid_id_fails_fast (t : Transport) (s : ResourceState)
    (id : String) (p : NestedParams) (slot : ParamSlot NestedParams) (cb : Bool) :
    (startsWithStr id Order.idStart = false →
      (OrdersLinesResource.update t s id (some p) cb).1.result
          = .error (.invalidInput "The order id is invalid") ∧
      (OrdersLinesResource.update t s id (some p) cb).1.requests = [] ∧
      (OrdersLinesResource.cancel t s id (some p) cb).1.result
          = .error (.invalidInput "The order id is invalid") ∧
      (OrdersLinesResource.cancel t s id (some p) cb).1.requests = []) ∧
    (startsWithStr id Refund.idStart = false →
      (PaymentsRefundsResource.get t s id slot cb).1.result
          = .error (.invalidInput "The refund id is invalid") ∧
      (PaymentsRefundsResource.get t s id slot cb).1.requests = [] ∧
      (PaymentsRefundsResource.cancel t s id slot cb).1.result
          = .error (.invalidInput "The refund id is invalid") ∧
      (PaymentsRefundsResource.cancel t s id slot cb).1.requests = []) ∧
    (startsWithStr id Shipment.idStart = false →
      (OrdersShipmentsResource.update t s id (some p) cb).1.result
          = .error (.invalidInput "The shipment id is invalid") ∧
      (OrdersShipmentsResource.update t s id (some p) cb).1.requests = []) := by
  refine ⟨fun h => ?_, fun h => ?_, fun h => ?_⟩
  · unfold OrdersLinesResource.update OrdersLinesResource.cancel
    simp [h, destructureOpt, Resource.errorHandlerAbort]
  · unfold PaymentsRefundsResource.get PaymentsRefundsResource.cancel
    simp [h, Resource.errorHandlerAbort]
  · unfold OrdersShipmentsResource.update
    simp [h, destructureOpt, Resource.errorHandlerAbort]

/-- Witness for C1 amended at the invalid id "x", with and without a
callback. -/
theorem claim1_amended_invalid_id_fails_fast_witness :
    (OrdersLinesResource.update okTransport ⟨none⟩ "x" (some ⟨none⟩) true).1.requests = [] ∧
    (PaymentsRefundsResource.get okTransport ⟨none⟩ "x" .absent false).1.requests = [] ∧
    (OrdersShipmentsResource.update okTransport ⟨none⟩ "x" (some ⟨none⟩) false).1.requests
      = [] := by
  refine ⟨?_, ?_, ?_⟩
  · exact ((claim1_amended_invalid_id_fails_fast okTransport ⟨none⟩ "x" ⟨none⟩ .absent
      true).1 (by decide)).2.1
  · exact ((claim1_amended_invalid_id_fails_fast okTransport ⟨none⟩ "x" ⟨none⟩ .absent
      false).2.1 (by decide)).2.1
  · exact ((claim1_amended_invalid_id_fails_fast okTransport ⟨none⟩ "x" ⟨none⟩ .absent
      false).2.2 (by decide)).2

/-! ## Claim C2 -/

/-- C2 counterexample: after a promise-style `PaymentsRefundsResource.get`
call binding payment id "tr_A", the resource instance state still carries
that parent id, and a later callback-style call on the same instance with no
explicit payment id observes it: it passes validation through the leftover
binding and composes its request path from it. The parent binding is
therefore observable instance state, not scoped to the single call. -/
theorem claim2_counterexample :
    (PaymentsRefundsResource.get okTransport ⟨none⟩ "re_1"
        (.value ⟨some "tr_A"⟩) false).2 = ⟨some "tr_A"⟩ ∧
    (PaymentsRefundsResource.get okTransport ⟨some "tr_A"⟩ "re_2" .absent true).1.result
      = .ok "response" ∧
    (PaymentsRefundsResource.get okTransport ⟨some "tr_A"⟩ "re_2" .absent true).1.requests
      = [⟨"GET", "payments/tr_A/refunds/re_2"⟩] := by decide

/-- C2 amended: the parent id is stored by `setParentId` in mutable instance
state that persists after the call and is observable by later calls; within
one promise-style call, however, execution up to the engine request is
synchronous, so the request is composed from the parent id bound by that same
call regardless of the prior state, and the state afterwards carries exactly
that parent id. -/
theorem claim2_amended_binding_is_instance_state (t : Transport) (s : ResourceState)
    (id pid : String)
    (hid : startsWithStr id Refund.idStart = true)
    (hpid : startsWithStr pid Payment.idStart = true) :
    (PaymentsRefundsResource.get t s id (.value ⟨some pid⟩) false).1.requests
      = [⟨"GET", "payments/" ++ pid ++ "/refunds/" ++ id⟩] ∧
    (PaymentsRefundsResource.get t s id (.value ⟨some pid⟩) false).2 = ⟨some pid⟩ := by
  rw [payRefundsGet_promise_branch t s id pid hid hpid]
  refine ⟨?_, rfl⟩
  rw [engineGet_requests]
  simp only [getPath_paymentsRefunds]

/-- Witness for C2 amended at refund id "re_1", payment id "tr_A" on an
instance previously bound to "tr_OLD". -/
theorem claim2_amended_binding_is_instance_state_witness :
    (PaymentsRefundsResource.get okTransport ⟨some "tr_OLD"⟩ "re_1"
        (.value ⟨some "tr_A"⟩) false).1.requests
      = [⟨"GET", "payments/tr_A/refunds/re_1"⟩] ∧
    (PaymentsRefundsResource.get okTransport ⟨some "tr_OLD"⟩ "re_1"
        (.value ⟨some "tr_A"⟩) false).2 = ⟨some "tr_A"⟩ := by
  have h := claim2_amended_binding_is_instance_state okTransport ⟨some "tr_OLD"⟩
    "re_1" "tr_A" (by decide) (by decide)
  exact ⟨h.1.trans (by decide), h.2⟩

/-! ## Claim C3 -/

/-- C3 counterexample: with a previously bound payment id "tr_A" on the
instance, a promise-style `PaymentsRefundsResource.get` whose params omit the
payment id does not fall back to the binding: it rejects with Invalid Input
and no request, refuting the claimed precedence for promise-style calls. -/
theorem claim3_counterexample :
    (PaymentsRefundsResource.get okTransport ⟨some "tr_A"⟩ "re_1"
        (.value ⟨none⟩) false).1.result
      = .error (.invalidInput "The payment id is invalid") ∧
    (PaymentsRefundsResource.get okTransport ⟨some "tr_A"⟩ "re_1"
        (.value ⟨none⟩) false).1.requests = [] := by decide

/-- C3 amended: the explicit-params-over-bound precedence governs only the
validation step of legacy-callback-style calls: there an explicit payment id
is validated in preference to the bound one, an omitted explicit id falls
back to the bound one, and in every callback-style call the request path is
composed from the previously bound parent id, never from the explicit one. A
promise-style call requires the parent id inside its own params — it is then
validated, bound and used for the path — and rejects with Invalid Input when
the params omit it, no matter what was bound before. -/
theorem claim3_amended_parent_resolution (t : Transport) (id pidB pidX pidC : String)
    (hid : startsWithStr id Refund.idStart = true)
    (hB : startsWithStr pidB Payment.idStart = true)
    (hX : startsWithStr pidX Payment.idStart = false)
    (hXne : pidX ≠ "")
    (hC : startsWithStr pidC Payment.idStart = true) :
    (PaymentsRefundsResource.get t ⟨some pidB⟩ id .absent true).1.requests
      = [⟨"GET", "payments/" ++ pidB ++ "/refunds/" ++ id⟩] ∧
    (PaymentsRefundsResource.get t ⟨some pidB⟩ id (.value ⟨some pidX⟩) true).1.result
      = .error (.invalidInput "The payment id is invalid") ∧
    (PaymentsRefundsResource.get t ⟨some pidB⟩ id (.value ⟨some pidX⟩) true).1.requests
      = [] ∧
    (PaymentsRefundsResource.get t ⟨some pidB⟩ id (.value ⟨some pidC⟩) true).1.requests
      = [⟨"GET", "payments/" ++ pidB ++ "/refunds/" ++ id⟩] ∧
    (PaymentsRefundsResource.get t ⟨some pidB⟩ id (.value ⟨none⟩) false).1.result
      = .error (.invalidInput "The payment id is invalid") ∧
    (PaymentsRefundsResource.get t ⟨some pidB⟩ id (.value ⟨none⟩) false).1.requests
      = [] := by
  have habs : PaymentsRefundsResource.get t ⟨some pidB⟩ id .absent true
      = (Resource.engineGet t ⟨some pidB⟩ PaymentsRefundsResource.resource id true,
         ⟨some pidB⟩) := by
    refine payRefundsGet_callback_branch t ⟨some pidB⟩ id .absent true hid rfl ?_
    simpa [ParamSlot.parentField, jsOrStr, startsWithJs] using hB
  have hexpX : PaymentsRefundsResource.get t ⟨some pidB⟩ id (.value ⟨some pidX⟩) true
      = Resource.errorHandlerAbort Value ⟨some pidB⟩ "The payment id is invalid" true := by
    refine payRefundsGet_callback_branch_invalid t ⟨some pidB⟩ id
      (.value ⟨some pidX⟩) true hid rfl ?_
    simpa [ParamSlot.parentField, jsOrStr, hXne, startsWithJs] using hX
  have hCne : pidC ≠ "" := by
    intro hE
    rw [hE] at hC
    exact absurd hC (by decide)
  have hexpC : PaymentsRefundsResource.get t ⟨some pidB⟩ id (.value ⟨some pidC⟩) true
      = (Resource.engineGet t ⟨some pidB⟩ PaymentsRefundsResource.resource id true,
         ⟨some pidB⟩) := by
    refine payRefundsGet_callback_branch t ⟨some pidB⟩ id (.value ⟨some pidC⟩) true hid rfl ?_
    simpa [ParamSlot.parentField, jsOrStr, hCne, startsWithJs] using hC
  have hmis : PaymentsRefundsResource.get t ⟨some pidB⟩ id (.value ⟨none⟩) false
      = Resource.errorHandlerAbort Value ⟨some pidB⟩ "The payment id is invalid" false :=
    payRefundsGet_promise_branch_invalid t ⟨some pidB⟩ id ⟨none⟩ hid (by decide)
  refine ⟨?_, ?_, ?_, ?_, ?_, ?_⟩
  · rw [habs, engineGet_requests]
    simp only [getPath_paymentsRefunds]
  · rw [hexpX]; rfl
  · rw [hexpX]; rfl
  · rw [hexpC, engineGet_requests]
    simp only [getPath_paymentsRefunds]
  · rw [hmis]; rfl
  · rw [hmis]; rfl

/-- Witness for C3 amended at refund id "re_1", bound payment id "tr_A",
invalid explicit id "xx" and valid explicit id "tr_B". -/
theorem claim3_amended_parent_resolution_witness :
    (PaymentsRefundsResource.get okTransport ⟨some "tr_A"⟩ "re_1" .absent true).1.requests
      = [⟨"GET", "payments/tr_A/refunds/re_1"⟩] ∧
    (PaymentsRefundsResource.get okTransport ⟨some "tr_A"⟩ "re_1"
        (.value ⟨some "xx"⟩) true).1.requests = [] ∧
    (PaymentsRefundsResource.get okTransport ⟨some "tr_A"⟩ "re_1"
        (.value ⟨some "tr_B"⟩) true).1.requests
      = [⟨"GET", "payments/tr_A/refunds/re_1"⟩] := by
  have h := claim3_amended_parent_resolution okTransport "re_1" "tr_A" "xx" "tr_B"
    (by decide) (by decide) (by decide) (by decide) (by decide)
  exact ⟨h.1.trans (by decide), h.2.2.1, h.2.2.2.1.trans (by decide)⟩

/-! ## Claim C7 -/

/-- C7: for every call through the modelled operations — with or without a
legacy callback, whether trailing or passed positionally — the callback is
invoked at most once, and anything it receives is exactly the success value
or error the returned future settles with. -/
theorem claim7_callback_single_consistent_delivery (t : Transport) (s : ResourceState)
    (id : String) (p : Option NestedParams) (slot : ParamSlot NestedParams)
    (su : ParamSlot Unit) (cb : Bool) :
    cbConsistent (RefundsResource.list t su cb) ∧
    cbConsistent (OrdersLinesResource.update t s id p cb).1 ∧
    cbConsistent (OrdersLinesResource.cancel t s id p cb).1 ∧
    cbConsistent (PaymentsRefundsResource.get t s id slot cb).1 ∧
    cbConsistent (PaymentsRefundsResource.cancel t s id slot cb).1 ∧
    cbConsistent (OrdersShipmentsResource.get t s id slot cb).1 ∧
    cbConsistent (OrdersShipmentsResource.create t s p cb).1 ∧
    cbConsistent (OrdersShipmentsResource.update t s id p cb).1 ∧
    cbConsistent (OrdersShipmentsResource.list t s p cb).1 :=
  ⟨cbConsistent_refundsList t su cb,
   cbConsistent_linesUpdate t s id p cb,
   cbConsistent_linesCancel t s id p cb,
   cbConsistent_payRefundsGet t s id slot cb,
   cbConsistent_payRefundsCancel t s id slot cb,
   cbConsistent_shipGet t s id slot cb,
   cbConsistent_shipCreate t s p cb,
   cbConsistent_shipUpdate t s id p cb,
   cbConsistent_shipList t s p cb⟩

/-! ## Claim C8 -/

/-- C8 counterexample: with no caller serializer, `createHttpClient`
configures the qs default, and that serializer renders an array-valued
parameter in bracket-indexed style, not in repeated-key style: for
`ids = [a, b]` it produces `ids%5B0%5D=a&ids%5B1%5D=b`, which differs from
the repeated-key serialization `ids=a&ids=b`. -/
theorem claim8_counterexample :
    (createHttpClient
        { apiKey := "k", baseURL := none, headers := fun _ => none,
          httpsAgent := none, paramsSerializer := none }
        ⟨false, "cert", "v12", "2.0.0"⟩).paramsSerializer = qsStringify ∧
    qsStringify [("ids", .arr ["a", "b"])] = "ids%5B0%5D=a&ids%5B1%5D=b" ∧
    repeatedKeyStringify [("ids", .arr ["a", "b"])] = "ids=a&ids=b" ∧
    qsStringify [("ids", .arr ["a", "b"])]
      ≠ repeatedKeyStringify [("ids", .arr ["a", "b"])] :=
  ⟨rfl, by decide, by decide, by decide⟩

/-- C8 amended: the serializer configured by default is `qs.stringify`, whose
documented default turns an array-valued parameter into one percent-encoded
`key[i]=value` pair per element joined by ampersands (bracket-indexed style)
— one pair per element rather than a comma-joined single value, but under
indexed keys rather than the same key repeated. -/
theorem claim8_amended_indices_style (o : MollieRequestConfig) (e : JsEnv)
    (k : String) (xs : List String)
    (h : o.paramsSerializer = none) :
    (createHttpClient o e).paramsSerializer = qsStringify ∧
    qsStringify [(k, QueryVal.arr xs)]
      = String.intercalate "&" (xs.mapIdx fun i x =>
          qsEncode (k ++ "[" ++ toString i ++ "]") ++ "=" ++ qsEncode x) ∧
    qsStringify [("ids", QueryVal.arr ["a", "b"])] ≠ "ids=a,b" ∧
    qsStringify [("ids", QueryVal.arr ["a", "b"])] ≠ "ids=a&ids=b" := by
  refine ⟨?_, ?_, by decide, by decide⟩
  · simp [createHttpClient, h]
  · simp [qsStringify]

/-- Witness for C8 amended at a serializer-less configuration and a
two-element array. -/
theorem claim8_amended_indices_style_witness :
    (createHttpClient
        { apiKey := "k", baseURL := none, headers := fun _ => none,
          httpsAgent := none, paramsSerializer := none }
        ⟨false, "cert", "v12", "2.0.0"⟩).paramsSerializer = qsStringify ∧
    qsStringify [("ids", QueryVal.arr ["a", "b"])] ≠ "ids=a,b" :=
  ⟨(claim8_amended_indices_style
      { apiKey := "k", baseURL := none, headers := fun _ => none,
        httpsAgent := none, paramsSerializer := none }
      ⟨false, "cert", "v12", "2.0.0"⟩ "ids" ["a", "b"] rfl).1,
   (claim8_amended_indices_style
      { apiKey := "k", baseURL := none, headers := fun _ => none,
        httpsAgent := none, paramsSerializer := none }
      ⟨false, "cert", "v12", "2.0.0"⟩ "ids" ["a", "b"] rfl).2.2.1⟩
